import Mathlib

/-
Shallow embedding of the pedrocotrim/fastapi-carsales backend.

Each definition below is translated from a named function of the repository
(file and line references are given in the doc comments).  External
collaborators (SQLAlchemy session, Redis, MinIO, ClamAV, python-jose) are
modelled as explicit state or as function parameters; machine-level details
that the verified logic never observes (timestamps inside tokens, TTL decay,
connection pooling) are abstracted.
-/

deriving instance DecidableEq for Except

namespace CarSales

/-- app/core/exceptions.py, `BaseCustomException`: status code, short error
label, description and optional HTTP headers.  `TokenAuthException` and
`FileUploadException` are particular values of this structure. -/
structure BaseCustomException where
  status_code : Nat
  error : String
  description : String
  headers : List (String × String) := []
deriving Repr, DecidableEq

/-- app/core/exceptions.py, `FileUploadException(description)`:
`BaseCustomException(400, "File Upload Error", description)`. -/
def FileUploadException (description : String) : BaseCustomException :=
  ⟨400, "File Upload Error", description, []⟩

/-- app/core/exceptions.py, `TokenAuthException(description)`:
`BaseCustomException(401, "Authentication Error", description,
headers={"WWW-Authenticate": "Bearer"})`. -/
def TokenAuthException (description : String) : BaseCustomException :=
  ⟨401, "Authentication Error", description, [("WWW-Authenticate", "Bearer")]⟩

/-! ## Redis cache (app/core/redis.py)

The cache is a finite map from string keys to string values, modelled as an
association list in which the most recent binding is first.  `cache_set`
stores `json.dumps(value)` and `cache_get` returns `json.loads(value)`;
on string values this JSON round trip is the identity, so values are stored
directly.  TTL expiry is not modelled (no claim depends on it). -/

abbrev RedisState := List (String × String)

/-- app/core/redis.py, `cache_get(client, key)`: the value under `key`,
or `None` when the key is absent. -/
def cache_get (cache : RedisState) (key : String) : Option String :=
  (cache.find? (fun kv => kv.1 == key)).map (fun kv => kv.2)

/-- app/core/redis.py, `cache_set(client, key, value, expire)`:
`SETEX` overwrites any previous value under `key`. -/
def cache_set (cache : RedisState) (key value : String) : RedisState :=
  (key, value) :: cache

/-- Removal of every binding of `key`, the state effect of a redis
`DELETE key`. -/
def cache_erase (cache : RedisState) (key : String) : RedisState :=
  cache.filter (fun kv => kv.1 != key)

/-- The redis client call `client.delete(key)`: returns the number of keys
removed (`0` when the key was absent) together with the new state, or `none`
when the client itself raises (connection failure, modelled by the
`client_error` flag). -/
def redis_delete (cache : RedisState) (key : String) (client_error : Bool) :
    Option (Nat × RedisState) :=
  if client_error then none
  else some ((if (cache_get cache key).isSome then 1 else 0), cache_erase cache key)

/-- app/core/redis.py, `cache_delete(client, key)`: returns `True` when the
client call did not raise — REGARDLESS of how many keys were removed — and
`False` (after swallowing the exception) when it raised. -/
def cache_delete (cache : RedisState) (key : String) (client_error : Bool) :
    Bool × RedisState :=
  match redis_delete cache key client_error with
  | none => (false, cache)
  | some (_, cache') => (true, cache')

/-! ## JWT layer (app/core/security.py, python-jose)

`jwt.decode(token, secret, algorithms)` verifies signature and expiry and
returns the claim dict, raising `JWTError` otherwise.  It is modelled as a
function `String → Option JwtPayload` supplied by the environment:
`none` stands for `JWTError`, `some payload` for a successful decode. -/

/-- The claims of a decoded JWT that the services inspect: the `sub` claim
and the `type` claim (each possibly absent). -/
structure JwtPayload where
  sub : Option String
  typ : Option String
deriving Repr, DecidableEq

abbrev JwtDecode := String → Option JwtPayload

/-! ## Users (app/models/user.py) -/

/-- app/models/user.py, `UserRole`. -/
inductive UserRole
  | admin
  | seller
  | buyer
deriving Repr, DecidableEq

/-- app/models/user.py, `User`: the columns the verified services read or
write (timestamps are not observed by any claim). -/
structure UserRec where
  id : String
  email : String
  password_hash : String
  role : UserRole
  is_active : Bool
deriving Repr, DecidableEq

/-- app/services/user.py, `UserService.get_user_by_id`: looks the user up by
primary key and raises 404 "User not found" when absent. -/
def get_user_by_id (users : List UserRec) (user_id : String) :
    Except BaseCustomException UserRec :=
  match users.find? (fun u => u.id == user_id) with
  | none => .error ⟨404, "User not found", "The user with the given ID was not found.", []⟩
  | some u => .ok u

/-! ## AuthService (app/services/auth.py) -/

/-- The cache key `f"refresh_token:{user_id}"`. -/
def refresh_key (user_id : String) : String := "refresh_token:" ++ user_id

/-- app/services/auth.py, `AuthService.refresh_token` (token issuance): the
cache effect of issuing tokens for `user_id` — the freshly generated refresh
token is stored under the per-account key.  The generated token value,
produced by `create_refresh_token` from the current time and the secret, is
passed in as `new_refresh_token`; the access token and the cookie do not
touch the cache. -/
def auth_refresh_token (cache : RedisState) (user_id new_refresh_token : String) :
    RedisState :=
  cache_set cache (refresh_key user_id) new_refresh_token

/-- The 401 "Token revoked or expired" error of `validate_refresh_token`. -/
def token_revoked_error : BaseCustomException :=
  ⟨401, "Token revoked or expired", "The refresh token has been revoked or expired.", []⟩

/-- The 401 "Token not found" error of `logout`. -/
def token_not_found_error : BaseCustomException :=
  ⟨401, "Token not found", "Refresh token for the given user id was not found", []⟩

/-- app/services/auth.py, `AuthService.validate_refresh_token`.
Mirrors the source order: decode (JWTError → 401 "Token expired"), the
`type` claim check, the falsy check `if not user_id` on the `sub` claim,
the strict cache comparison `stored_token != token`, then
`get_user_by_id` (whose 404 propagates out of the `try`, since it is not a
`JWTError`). -/
def validate_refresh_token (decode : JwtDecode) (users : List UserRec)
    (cache : RedisState) (token : String) : Except BaseCustomException String :=
  match decode token with
  | none => .error ⟨401, "Token expired", "The refresh token has expired.", []⟩
  | some payload =>
    if payload.typ ≠ some "refresh" then
      .error ⟨401, "Invalid token type", "The refresh token is invalid.", []⟩
    else
      match payload.sub with
      | none => .error ⟨401, "Invalid token claims", "The refresh token claims are invalid.", []⟩
      | some user_id =>
        if user_id = "" then
          .error ⟨401, "Invalid token claims", "The refresh token claims are invalid.", []⟩
        else if cache_get cache (refresh_key user_id) ≠ some token then
          .error token_revoked_error
        else
          match get_user_by_id users user_id with
          | .error e => .error e
          | .ok _ => .ok user_id

/-- app/services/auth.py, `AuthService.logout`: deletes the cookie (not
modelled), calls `cache_delete`, and raises 401 "Token not found" when
`deleted == 0`.  `deleted` is the BOOLEAN returned by `cache_delete`, so in
Python the comparison `deleted == 0` holds exactly when it is `False`. -/
def logout (cache : RedisState) (user_id : String) (client_error : Bool) :
    Except BaseCustomException RedisState :=
  let r := cache_delete cache (refresh_key user_id) client_error
  if r.1 = false then
    .error token_not_found_error
  else .ok r.2

/-! ## get_current_user (app/core/dependencies.py) -/

/-- The `credentials_exception` of `get_current_user`. -/
def credentials_exception : BaseCustomException :=
  TokenAuthException "The provided authentication token is invalid or expired."

/-- app/core/dependencies.py, `get_current_user`: decodes the bearer token,
requires the `sub` claim to be present (`is None` check), loads the user
(the 404 of `get_user_by_id` is caught by `except BaseCustomException` and
replaced by `credentials_exception`), rejects inactive users, and returns
the user.  The `type` claim of the payload is never inspected. -/
def get_current_user (decode : JwtDecode) (users : List UserRec) (token : String) :
    Except BaseCustomException UserRec :=
  match decode token with
  | none => .error credentials_exception
  | some payload =>
    match payload.sub with
    | none => .error credentials_exception
    | some user_id =>
      match get_user_by_id users user_id with
      | .error _ => .error credentials_exception
      | .ok user =>
        if user.is_active = false then .error credentials_exception
        else .ok user

/-! ## Cache lemmas -/

theorem cache_get_set_self (c : RedisState) (k v : String) :
    cache_get (cache_set c k v) k = some v := by
  unfold cache_get cache_set
  rw [List.find?_cons_of_pos]
  · rfl
  · simp

theorem cache_get_erase_self (c : RedisState) (k : String) :
    cache_get (cache_erase c k) k = none := by
  unfold cache_get cache_erase
  have h : (c.filter (fun kv => kv.1 != k)).find? (fun kv => kv.1 == k) = none := by
    rw [List.find?_eq_none]
    intro x hx
    have hmem := List.of_mem_filter hx
    simp only [bne_iff_ne, ne_eq] at hmem
    simp [hmem]
  rw [h]
  rfl

/-- For a decodable token with type claim "refresh" and a present (non-falsy)
subject, `validate_refresh_token` reduces to the whitelist comparison
followed by the account lookup. -/
theorem validate_refresh_token_reduce (decode : JwtDecode) (users : List UserRec)
    (cache : RedisState) (token user_id : String) (payload : JwtPayload)
    (hdec : decode token = some payload)
    (htyp : payload.typ = some "refresh")
    (hsub : payload.sub = some user_id)
    (hne : user_id ≠ "") :
    validate_refresh_token decode users cache token =
      if cache_get cache (refresh_key user_id) ≠ some token then
        .error token_revoked_error
      else
        match get_user_by_id users user_id with
        | .error e => .error e
        | .ok _ => .ok user_id := by
  unfold validate_refresh_token
  rw [hdec]
  simp only [htyp, hsub, ne_eq, not_true_eq_false, if_false, hne, ite_false]

/-- Claim C1: for every refresh token whose signature verifies, whose type
claim is "refresh" and whose subject claim is present (the subject naming an
existing account row), validation succeeds with the subject account id if and
only if the token exactly equals the value currently cached under the
refresh-token key of that account, and it fails with TokenRevoked whenever
the cached value differs; consequently, after token issuance stores a new
refresh token for the account, and after logout deletes the cache entry,
the previously issued token fails validation with TokenRevoked. -/
theorem C1_refresh_token_whitelist (decode : JwtDecode) (users : List UserRec)
    (cache : RedisState) (token new_token user_id : String) (payload : JwtPayload)
    (hdec : decode token = some payload)
    (htyp : payload.typ = some "refresh")
    (hsub : payload.sub = some user_id)
    (hne : user_id ≠ "")
    (hex : (users.find? (fun u => u.id == user_id)).isSome = true)
    (hnew : new_token ≠ token) :
    (validate_refresh_token decode users cache token = .ok user_id ↔
      cache_get cache (refresh_key user_id) = some token) ∧
    (cache_get cache (refresh_key user_id) ≠ some token →
      validate_refresh_token decode users cache token = .error token_revoked_error) ∧
    (validate_refresh_token decode users
        (auth_refresh_token cache user_id new_token) token =
      .error token_revoked_error) ∧
    (logout cache user_id false = .ok (cache_erase cache (refresh_key user_id))) ∧
    (validate_refresh_token decode users (cache_erase cache (refresh_key user_id)) token =
      .error token_revoked_error) := by
  obtain ⟨u, hu⟩ := Option.isSome_iff_exists.mp hex
  have hget : get_user_by_id users user_id = .ok u := by
    unfold get_user_by_id
    rw [hu]
  refine ⟨?_, ?_, ?_, ?_, ?_⟩
  · rw [validate_refresh_token_reduce decode users cache token user_id payload hdec htyp hsub hne]
    by_cases hc : cache_get cache (refresh_key user_id) = some token
    · simp [hc, hget]
    · simp [hc, token_revoked_error]
  · intro hc
    rw [validate_refresh_token_reduce decode users cache token user_id payload hdec htyp hsub hne]
    simp [hc]
  · rw [validate_refresh_token_reduce decode users _ token user_id payload hdec htyp hsub hne]
    rw [auth_refresh_token, cache_get_set_self]
    simp [hnew]
  · simp [logout, cache_delete, redis_delete]
  · rw [validate_refresh_token_reduce decode users _ token user_id payload hdec htyp hsub hne]
    rw [cache_get_erase_self]
    simp

/-- A concrete decode environment: one decodable refresh token "tok-old" and
one "tok-new", both for account "u1". -/
def c1_decode : JwtDecode := fun t =>
  if t = "tok-old" ∨ t = "tok-new" then some ⟨some "u1", some "refresh"⟩ else none

/-- A concrete account row for the auth witnesses. -/
def c1_user : UserRec := ⟨"u1", "a@x.com", "hash", .buyer, true⟩

/-- Witness for C1: with account "u1" present and "tok-old" cached, the old
token validates; after rotation to "tok-new" and after logout the same call
fails with TokenRevoked. -/
theorem C1_refresh_token_whitelist_witness :
    validate_refresh_token c1_decode [c1_user]
      [(refresh_key "u1", "tok-old")] "tok-old" = .ok "u1" ∧
    validate_refresh_token c1_decode [c1_user]
      (auth_refresh_token [(refresh_key "u1", "tok-old")] "u1" "tok-new") "tok-old" =
      .error token_revoked_error ∧
    validate_refresh_token c1_decode [c1_user]
      (cache_erase [(refresh_key "u1", "tok-old")] (refresh_key "u1")) "tok-old" =
      .error token_revoked_error := by
  have h := C1_refresh_token_whitelist c1_decode [c1_user]
    [(refresh_key "u1", "tok-old")] "tok-old" "tok-new" "u1" ⟨some "u1", some "refresh"⟩
    (by decide) rfl rfl (by decide) (by decide) (by decide)
  exact ⟨h.1.mpr (by decide), h.2.2.1, h.2.2.2.2⟩

/-- Claim C7: counterexample evaluation.  With a healthy cache client and no
cache entry for account "u1", `logout` succeeds silently (cache_delete
returns True whenever the client call does not raise, regardless of how many
keys were removed, and the Python comparison `deleted == 0` on that boolean
only holds for False); the claimed TokenNotFound failure for a missing entry
never happens.  TokenNotFound is raised exactly when the client raises. -/
theorem C7_logout_missing_entry_silently_succeeds :
    cache_get [] (refresh_key "u1") = none ∧
    logout [] "u1" false = .ok [] ∧
    logout [(refresh_key "u1", "tok")] "u1" false =
      .ok (cache_erase [(refresh_key "u1", "tok")] (refresh_key "u1")) ∧
    logout [] "u1" true = .error token_not_found_error := by
  refine ⟨rfl, rfl, ?_, rfl⟩
  simp [logout, cache_delete, redis_delete]

/-- Claim C10: the access-token guard `get_current_user` accepts every token
whose decode succeeds, whose subject claim is present and names an existing
active account — for any value of the type claim, which it never inspects.
In particular a refresh token (type claim "refresh") is accepted wherever an
access token is required. -/
theorem C10_guard_ignores_type_claim (decode : JwtDecode) (users : List UserRec)
    (token user_id : String) (typ : Option String) (user : UserRec)
    (hdec : decode token = some ⟨some user_id, typ⟩)
    (hfind : users.find? (fun u => u.id == user_id) = some user)
    (hactive : user.is_active = true) :
    get_current_user decode users token = .ok user := by
  unfold get_current_user get_user_by_id
  rw [hdec]
  simp [hfind, hactive]

/-- Witness for C10: a token carrying type claim "refresh" for the existing
active account "u1" is accepted by the access-token guard. -/
theorem C10_guard_ignores_type_claim_witness :
    get_current_user c1_decode [c1_user] "tok-old" = .ok c1_user :=
  C10_guard_ignores_type_claim c1_decode [c1_user] "tok-old" "u1"
    (some "refresh") c1_user (by decide) (by decide) (by decide)

/-! ## UserService.register_user (app/services/user.py) -/

/-- app/models/user.py, `Profile`: the columns the verified services read or
write. -/
structure ProfileRec where
  user_id : String
  full_name : Option String
  slug : String
  picture_filename : Option String
  picture_mime : Option String
deriving Repr, DecidableEq

/-- The relational store seen by `UserService`: the `users` and `profiles`
tables. -/
structure UsersDB where
  users : List UserRec
  profiles : List ProfileRec
deriving Repr, DecidableEq

/-- A raised Python exception as seen by `register_user` and its caller:
either an application `BaseCustomException`, or the
`sqlalchemy.exc.IntegrityError` that `session.commit()` raises on a unique
constraint violation. -/
inductive PyErr
  | custom (e : BaseCustomException)
  | integrityError
deriving Repr, DecidableEq

/-- The transactional insert attempted by `session.commit()` in
`register_user`: it fails (raising `sqlalchemy.exc.IntegrityError`, modelled
as `none`) when a unique constraint is violated — the account email
(users.email, unique) or the profile slug (profiles.slug, unique) — and
otherwise persists the account row and its profile row atomically.
Collisions on the freshly generated UUID primary keys are not modelled. -/
def commit_insert (db : UsersDB) (u : UserRec) (p : ProfileRec) : Option UsersDB :=
  if db.users.any (fun x => x.email == u.email) then none
  else if db.profiles.any (fun x => x.slug == p.slug) then none
  else some ⟨u :: db.users, p :: db.profiles⟩

/-- The lowercase hexadecimal alphabet used by `secrets.token_hex`. -/
def hex_digits : List Char := "0123456789abcdef".data

/-- One output character of `secrets.token_hex`. -/
def hex_digit (d : Nat) : Char := hex_digits.getD (d % 16) '0'

/-- `secrets.token_hex(4)` (user.py:69): four random bytes rendered as 8
lowercase hexadecimal characters.  The random draw is modelled as the
natural number `r` (taken mod 2^32 by construction of the 8 digits). -/
def token_hex_4 (r : Nat) : String :=
  String.mk ((List.range 8).map (fun i => hex_digit (r / 16 ^ (7 - i))))

theorem token_hex_4_length (r : Nat) : (token_hex_4 r).length = 8 := by
  simp [token_hex_4, String.length]

theorem hex_digit_mem (d : Nat) : hex_digit d ∈ hex_digits := by
  unfold hex_digit
  have h : d % 16 < hex_digits.length := Nat.mod_lt _ (by decide)
  rw [List.getD_eq_getElem _ _ h]
  exact List.getElem_mem h

theorem token_hex_4_chars (r : Nat) : ∀ c ∈ (token_hex_4 r).data, c ∈ hex_digits := by
  intro c hc
  simp only [token_hex_4, String.data, List.mem_map] at hc
  obtain ⟨i, _, rfl⟩ := hc
  exact hex_digit_mem _

/-- `MAX_ATTEMPTS` (user.py:65). -/
def MAX_ATTEMPTS : Nat := 5

/-- The 500 error raised after the retry loop exhausts its attempts. -/
def registration_failed_error : BaseCustomException :=
  ⟨500, "Registration failed", "Could not generate a unique username. Please try again.", []⟩

/-- The 409 email-conflict error of `register_user`. -/
def email_conflict_error : BaseCustomException :=
  ⟨409, "Invalid e-mail", "There is already an account with this e-mail address", []⟩

/-- user.py line 8 imports `IntegrityError` from `psycopg2`, but on a unique
violation the async session raises `sqlalchemy.exc.IntegrityError` (wrapping
the async driver error); the psycopg2 class is not an ancestor of the
SQLAlchemy class, so the `except IntegrityError` clause at user.py:80 never
matches the exception the commit raises. -/
def except_clause_catches_commit_error : Bool := false

/-- user.py:66-86, the `for _ in range(MAX_ATTEMPTS)` loop of
`register_user`: each iteration recomputes `slugify(full_name)` (constant
across iterations, passed here as `username`), draws a fresh suffix, sets
`profile.slug = f"{username}-{suffix}"` and commits; when the commit raises
and the `except` clause matches, the session is rolled back (the store keeps
its previous contents) and the loop continues with the next draw; an
unmatched exception propagates.  Exhausting the draws raises 500
"Registration failed".  The suffix draws are the successive elements of the
`suffixes` list. -/
def register_loop (db : UsersDB) (u : UserRec) (p : ProfileRec) (username : String) :
    List Nat → Except PyErr (UsersDB × ProfileRec)
  | [] => .error (.custom registration_failed_error)
  | r :: rest =>
    let p' := { p with slug := username ++ "-" ++ token_hex_4 r }
    match commit_insert db u p' with
    | some db' => .ok (db', p')
    | none =>
      if except_clause_catches_commit_error then
        register_loop db u p' username rest
      else .error .integrityError

/-- Python truthiness of the SQLAlchemy `ScalarResult` returned by
`await session.scalars(stmt)` (user.py:52): the class defines neither
`__bool__` nor `__len__`, so `if existing_user:` (user.py:54) is True for
every such result object — the check tests the result construct itself,
never the fetched boolean. -/
def scalar_result_truthy : Bool := true

/-- user.py:32-86, `UserService.register_user`.  `slugify` (python-slugify)
and `hash_password` (bcrypt, core/security.py) are external one-way
functions passed as parameters; `new_id` is the generated account UUID and
`suffixes` the successive draws of `secrets.token_hex(4)` available to the
loop (`register_user` offers the loop `MAX_ATTEMPTS` of them). -/
def register_user (slugify : String → String) (hash_password : String → String)
    (db : UsersDB) (email password full_name : String) (new_id : String)
    (suffixes : Nat → Nat) : Except PyErr (UsersDB × ProfileRec) :=
  if scalar_result_truthy then .error (.custom email_conflict_error)
  else
    let user : UserRec := ⟨new_id, email, hash_password password, .buyer, true⟩
    let profile : ProfileRec := ⟨new_id, some full_name, "", none, none⟩
    register_loop db user profile (slugify full_name)
      ((List.range MAX_ATTEMPTS).map suffixes)

/-- Claim C2: divergence evaluation.  Because the email-existence check
tests the truthiness of the ScalarResult object itself (always True),
`register_user` raises 409 EmailConflict for every input — in particular
when no account with the email exists — and never creates an account. -/
theorem C2_register_always_email_conflict (slugify hash_password : String → String)
    (db : UsersDB) (email password full_name new_id : String) (suffixes : Nat → Nat) :
    register_user slugify hash_password db email password full_name new_id suffixes =
      .error (.custom email_conflict_error) := rfl

/-- The account row built by `register_user` for the C8 evaluation. -/
def c8_user : UserRec := ⟨"id8", "new@x.com", "hashed", .buyer, true⟩

/-- The profile row built by `register_user` (slug still unset) for the C8
evaluation. -/
def c8_profile : ProfileRec := ⟨"id8", some "Jane Doe", "", none, none⟩

/-- A store in which the slug of the first attempted suffix draw (0, giving
"jane-doe-00000000") is already taken. -/
def c8_db_taken : UsersDB :=
  ⟨[⟨"x0", "other@x.com", "h", .buyer, true⟩],
   [⟨"x0", some "Jane Doe", "jane-doe-00000000", none, none⟩]⟩

/-- Claim C8: evaluation of the slug-retry loop.  A successful attempt
produces the slug `slugify(full_name) ++ "-" ++ suffix` with an
8-hex-character suffix, and `MAX_ATTEMPTS = 5`; but on a unique-constraint
violation the commit raises `sqlalchemy.exc.IntegrityError`, which the
`except psycopg2.IntegrityError` clause does not match, so the exception
propagates on the FIRST collision — the suffix is never regenerated and the
500 "Registration failed" error is unreachable.  Moreover `register_user`
never reaches the loop at all (email-gate truthiness bug, claim C2). -/
theorem C8_slug_retry_loop_eval :
    MAX_ATTEMPTS = 5 ∧
    token_hex_4 3735928559 = "deadbeef" ∧
    (token_hex_4 3735928559).length = 8 ∧
    register_loop ⟨[], []⟩ c8_user c8_profile "jane-doe" [3735928559] =
      .ok (⟨[c8_user], [{ c8_profile with slug := "jane-doe-deadbeef" }]⟩,
        { c8_profile with slug := "jane-doe-deadbeef" }) ∧
    register_loop c8_db_taken c8_user c8_profile "jane-doe"
        ((List.range MAX_ATTEMPTS).map (fun i => i)) = .error .integrityError ∧
    register_user (fun _ => "jane-doe") (fun _ => "hashed") ⟨[], []⟩
        "new@x.com" "longenough1" "Jane Doe" "id8" (fun i => i) =
      .error (.custom email_conflict_error) := by
  refine ⟨rfl, by decide, by decide, ?_, ?_, rfl⟩
  · simp [register_loop, commit_insert, c8_user, c8_profile]
    decide
  · simp [MAX_ATTEMPTS, List.range_succ, register_loop, commit_insert,
      c8_db_taken, c8_user, c8_profile, except_clause_catches_commit_error]
    decide

/-! ## StorageService.upload_image (app/services/storage.py) -/

/-- The outcome of the clamd client call `self.clamd.scan_stream(...)`
(storage.py:100): the stream is clean (pyclamd returns `None`), a threat is
reported (a truthy dict `{"stream": (status, label)}`, whose label may be
missing), the client raises `pyclamd.ConnectionError`, or it raises some
other exception. -/
inductive ScanCall
  | clean
  | threat (label : Option String)
  | connectionError (msg : String)
  | otherError (msg : String)
deriving Repr, DecidableEq

/-- An exception raised inside the scan `try` block: one raised by the clamd
client, or the `BaseCustomException` the code itself raises on a threat
verdict (storage.py:104). -/
inductive ScanExc
  | connectionError (msg : String)
  | otherError (msg : String)
  | custom (e : BaseCustomException)
deriving Repr, DecidableEq

/-- The 400 "Malware detected" error built at storage.py:104-106; the
description uses `scan_result.get("stream", (None, None))[1] or
"unknown threat"`, so a missing or empty threat label becomes
"unknown threat". -/
def malware_detected_error (label : Option String) : BaseCustomException :=
  ⟨400, "Malware detected",
    "Malware detected: " ++
      (match label with
       | none => "unknown threat"
       | some s => if s = "" then "unknown threat" else s), []⟩

/-- storage.py:98-106, the body of the scan `try` block: run the stream
scan, and on a truthy verdict raise the 400 "Malware detected" error. -/
def scan_try_body (call : ScanCall) : Except ScanExc Unit :=
  match call with
  | .clean => .ok ()
  | .threat label => .error (.custom (malware_detected_error label))
  | .connectionError msg => .error (.connectionError msg)
  | .otherError msg => .error (.otherError msg)

/-- The 503 error of `except clamd.ConnectionError` (storage.py:108-110). -/
def scanner_unavailable_error (msg : String) : BaseCustomException :=
  ⟨503, "Antivirus service unavailable", "Error connecting to ClamAV: " ++ msg, []⟩

/-- The 500 error of `except Exception` (storage.py:111-113). -/
def scan_error (msg : String) : BaseCustomException :=
  ⟨500, "Unexpected scan error", "Error during antivirus scan: " ++ msg, []⟩

/-- storage.py:98-113, the scan stage with its two `except` clauses:
`except clamd.ConnectionError` maps to 503; the following `except
Exception` catches EVERY other exception raised inside the `try` —
including the 400 "Malware detected" `BaseCustomException` raised at
storage.py:104 — and maps it to 500 "Unexpected scan error".  `str(e)` of a
`BaseCustomException` is the empty string (its constructor forwards nothing
to `Exception.__init__`), so in that case the description ends after the
colon. -/
def scan_stage (call : ScanCall) : Except BaseCustomException Unit :=
  match scan_try_body call with
  | .ok () => .ok ()
  | .error (.connectionError msg) => .error (scanner_unavailable_error msg)
  | .error (.otherError msg) => .error (scan_error msg)
  | .error (.custom _) => .error (scan_error "")

/-- The environment of one `upload_image` call: the uploaded byte string is
abstracted to the attributes the pipeline reads from it — its length, the
MIME type `magic` sniffs from it, whether `PIL.Image.open(...).verify()`
accepts it, and the scanner verdict on it; the settings
(`MAX_UPLOAD_SIZE`, `ALLOWED_IMAGE_MIMES`), the generated `uuid4().hex`
object name, and whether the MinIO `put_object` call succeeds complete the
environment. -/
structure UploadEnv where
  contents_size : Nat
  max_upload_size : Nat
  allowed_image_mimes : List String
  detected_mime : String
  image_valid : Bool
  scan : ScanCall
  uuid_hex : String
  put_error_msg : Option String
deriving Repr, DecidableEq

/-- An object durably stored by `client.put_object` (storage.py:119-125). -/
structure PutRecord where
  bucket : String
  object_name : String
  length : Nat
  content_type : String
deriving Repr, DecidableEq

/-- The 413 error of the size gate (storage.py:81-84). -/
def payload_too_large_error (size max : Nat) : BaseCustomException :=
  ⟨413, "File too large",
    "File size " ++ toString size ++ " exceeds limit of " ++ toString max ++ " bytes", []⟩

/-- The 415 error of the MIME gate (storage.py:88-91). -/
def unsupported_type_error (mime : String) : BaseCustomException :=
  ⟨415, "Unsupported file type", "File type " ++ mime ++ " is not allowed", []⟩

/-- storage.py:54-131, `StorageService.upload_image`: the sequential gate
pipeline.  Gates, in source order with short-circuiting: empty payload;
`if max_size_bytes and size > max_size_bytes` (int truthiness: the size gate
is active only when the configured maximum is nonzero); `if allowed_types
and detected not in allowed_types` (list truthiness likewise); PIL
structural verification; the scan stage; then the object name is generated
(`uuid4().hex` plus the extension derived from the sniffed MIME, with
`jpeg` rewritten to `jpg`) and the bytes are stored.  The second component
of the result lists the objects durably stored by the call. -/
def upload_image (env : UploadEnv) (bucket : String) :
    Except BaseCustomException (String × String) × List PutRecord :=
  let size := env.contents_size
  if size = 0 then (.error (FileUploadException "Empty file"), [])
  else if env.max_upload_size ≠ 0 ∧ env.max_upload_size < size then
    (.error (payload_too_large_error size env.max_upload_size), [])
  else if env.allowed_image_mimes ≠ [] ∧ env.detected_mime ∉ env.allowed_image_mimes then
    (.error (unsupported_type_error env.detected_mime), [])
  else if env.image_valid = false then
    (.error (FileUploadException "Invalid or corrupted image"), [])
  else
    match scan_stage env.scan with
    | .error e => (.error e, [])
    | .ok () =>
      let ext := ((env.detected_mime.splitOn "/").getLastD "").replace "jpeg" "jpg"
      let object_name := env.uuid_hex ++ "." ++ ext
      match env.put_error_msg with
      | some msg => (.error (FileUploadException ("Upload failed: " ++ msg)), [])
      | none =>
        (.ok (env.detected_mime, object_name),
         [⟨bucket, object_name, size, env.detected_mime⟩])

/-- An upload whose content passes every earlier gate and is then flagged by
the scanner as the EICAR test signature. -/
def c3_env : UploadEnv :=
  ⟨68, 5242880, ["image/jpeg", "image/png"], "image/png", true,
   .threat (some "Eicar-Test-Signature"), "aaaa", none⟩

/-- Claim C3: divergence evaluation.  On a threat verdict the code builds
and raises the 400 "Malware detected" error inside the `try` block, but its
own `except Exception` clause catches it and re-raises 500 "Unexpected scan
error" — so an upload flagged as malware fails with ScanError, not with
MalwareDetected. -/
theorem C3_malware_verdict_becomes_scan_error :
    scan_try_body c3_env.scan =
      .error (.custom (malware_detected_error (some "Eicar-Test-Signature"))) ∧
    upload_image c3_env "profile" = (.error (scan_error ""), []) ∧
    scan_error "" = ⟨500, "Unexpected scan error", "Error during antivirus scan: ", []⟩ ∧
    malware_detected_error (some "Eicar-Test-Signature") =
      ⟨400, "Malware detected", "Malware detected: Eicar-Test-Signature", []⟩ := by
  refine ⟨rfl, ?_, rfl, by decide⟩
  simp [upload_image, c3_env, scan_stage, scan_try_body]

/-- Claim C4: for every input that any gate rejects — empty payload, size
over the (nonzero) configured maximum, sniffed MIME outside the (nonempty)
allow-list, structurally invalid image, or any scan-stage failure (malware
verdict, scanner unreachable, other scan error) — `upload_image` fails with
no object written to the store; the put of the bytes happens only after all
gates, applied in source order with short-circuiting, have passed. -/
theorem C4_gates_before_store (env : UploadEnv) (bucket : String) :
    (∀ e, (upload_image env bucket).1 = .error e → (upload_image env bucket).2 = []) ∧
    ((upload_image env bucket).2 ≠ [] →
      env.contents_size ≠ 0 ∧
      (env.max_upload_size ≠ 0 → env.contents_size ≤ env.max_upload_size) ∧
      (env.allowed_image_mimes ≠ [] → env.detected_mime ∈ env.allowed_image_mimes) ∧
      env.image_valid = true ∧ scan_stage env.scan = .ok ()) ∧
    (env.contents_size = 0 →
      upload_image env bucket = (.error (FileUploadException "Empty file"), [])) ∧
    (env.contents_size ≠ 0 → env.max_upload_size ≠ 0 →
      env.max_upload_size < env.contents_size →
      upload_image env bucket =
        (.error (payload_too_large_error env.contents_size env.max_upload_size), [])) ∧
    (env.contents_size ≠ 0 →
      (env.max_upload_size ≠ 0 → env.contents_size ≤ env.max_upload_size) →
      env.allowed_image_mimes ≠ [] → env.detected_mime ∉ env.allowed_image_mimes →
      upload_image env bucket = (.error (unsupported_type_error env.detected_mime), [])) ∧
    (env.contents_size ≠ 0 →
      (env.max_upload_size ≠ 0 → env.contents_size ≤ env.max_upload_size) →
      (env.allowed_image_mimes ≠ [] → env.detected_mime ∈ env.allowed_image_mimes) →
      env.image_valid = false →
      upload_image env bucket =
        (.error (FileUploadException "Invalid or corrupted image"), [])) ∧
    (env.contents_size ≠ 0 →
      (env.max_upload_size ≠ 0 → env.contents_size ≤ env.max_upload_size) →
      (env.allowed_image_mimes ≠ [] → env.detected_mime ∈ env.allowed_image_mimes) →
      env.image_valid = true →
      ∀ e, scan_stage env.scan = .error e →
        upload_image env bucket = (.error e, [])) := by
  refine ⟨?_, ?_, ?_, ?_, ?_, ?_, ?_⟩
  · intro e
    simp only [upload_image]
    split_ifs
    · exact fun _ => rfl
    · exact fun _ => rfl
    · exact fun _ => rfl
    · exact fun _ => rfl
    · cases hscan : scan_stage env.scan with
      | error e2 => simp [hscan]
      | ok u =>
        cases u
        cases hput : env.put_error_msg with
        | some msg => simp [hscan, hput]
        | none => simp [hscan, hput]
  · intro hw
    simp only [upload_image] at hw
    split_ifs at hw with h1 h2 h3 h4
    · exact absurd rfl hw
    · exact absurd rfl hw
    · exact absurd rfl hw
    · exact absurd rfl hw
    · cases hscan : scan_stage env.scan with
      | error e2 => simp [hscan] at hw
      | ok u =>
        cases u
        cases hput : env.put_error_msg with
        | some msg => simp [hscan, hput] at hw
        | none =>
          refine ⟨h1, ?_, ?_, ?_, ?_⟩
          · intro hm
            by_contra hlt
            exact h2 ⟨hm, by omega⟩
          · intro hne
            by_contra hnm
            exact h3 ⟨hne, hnm⟩
          · simpa using h4
          · rfl
  · intro h0
    simp [upload_image, h0]
  · intro h1 hm hlt
    simp [upload_image, h1, hm, hlt]
  · intro h1 h2 hall hnm
    have h2' : ¬(env.max_upload_size ≠ 0 ∧ env.max_upload_size < env.contents_size) := by
      rintro ⟨hmz, hlt⟩
      exact absurd (h2 hmz) (by omega)
    simp [upload_image, h1, h2', hall, hnm]
  · intro h1 h2 h3 himg
    have h2' : ¬(env.max_upload_size ≠ 0 ∧ env.max_upload_size < env.contents_size) := by
      rintro ⟨hmz, hlt⟩
      exact absurd (h2 hmz) (by omega)
    have h3' : ¬(env.allowed_image_mimes ≠ [] ∧
        env.detected_mime ∉ env.allowed_image_mimes) := by
      rintro ⟨hne, hnm⟩
      exact hnm (h3 hne)
    simp [upload_image, h1, h2', h3', himg]
  · intro h1 h2 h3 himg e hscan
    have h2' : ¬(env.max_upload_size ≠ 0 ∧ env.max_upload_size < env.contents_size) := by
      rintro ⟨hmz, hlt⟩
      exact absurd (h2 hmz) (by omega)
    have h3' : ¬(env.allowed_image_mimes ≠ [] ∧
        env.detected_mime ∉ env.allowed_image_mimes) := by
      rintro ⟨hne, hnm⟩
      exact hnm (h3 hne)
    simp [upload_image, h1, h2', h3', himg, hscan]

/-- An empty upload for the C4 witness. -/
def c4_env : UploadEnv :=
  ⟨0, 5242880, ["image/jpeg", "image/png"], "image/png", true, .clean, "bbbb", none⟩

/-- Witness for C4: the empty-payload gate rejects with no object written. -/
theorem C4_gates_before_store_witness :
    upload_image c4_env "profile" = (.error (FileUploadException "Empty file"), []) :=
  (C4_gates_before_store c4_env "profile").2.2.1 rfl

/-! ## SellerApplicationService (app/services/seller_application.py) -/

/-- app/schema/seller_application.py:9-12, the SCHEMA module's
`SellerApplicationStatus`, a `str`-Enum: request payloads carry members of
this class, and it is the one the service module imports
(seller_application.py:13). -/
inductive SellerApplicationStatus
  | pending
  | approved
  | rejected
deriving Repr, DecidableEq

/-- app/models/seller_application.py:12-18, the MODELS module's
`SellerApplicationStatus`, a distinct plain Enum of the same three members:
the `status` column is typed `SQLEnum` over THIS class
(models/seller_application.py:42-47), so a loaded row carries its
members. -/
inductive ModelSellerApplicationStatus
  | pending
  | approved
  | rejected
deriving Repr, DecidableEq

/-- Python equality between a member of the models-module enum and a member
of the schema-module str-enum: `Enum.__eq__` is identity-based, and members
of two distinct Enum classes are never the same object, so the comparison
is False for EVERY pair — including members of the same name and value. -/
def model_eq_schema_status :
    ModelSellerApplicationStatus → SellerApplicationStatus → Bool :=
  fun _ _ => false

/-- The `SQLEnum` column over the models enum serializes an assigned member
by name on commit, so a schema-enum member written to the `status`
attribute would be persisted and reloaded as the models-enum member of the
same name. -/
def persisted_status : SellerApplicationStatus → ModelSellerApplicationStatus
  | .pending => .pending
  | .approved => .approved
  | .rejected => .rejected

/-- app/models/seller_application.py, `SellerApplication`: the columns the
review workflow reads or writes (`created_at` is not observed by it), the
status carried as the models-module enum the ORM loads.  The service and
the routes address applications by an integer id. -/
structure AppRec where
  id : Nat
  user_id : String
  details : String
  status : ModelSellerApplicationStatus
  reviewed_by : Option String
  admin_notes : Option String
  reviewed_at : Option Nat
deriving Repr, DecidableEq

/-- The relational store seen by the review workflow: the `users` and
`seller_applications` tables, reached through the shared request-scoped
session. -/
structure ReviewDB where
  users : List UserRec
  apps : List AppRec
deriving Repr, DecidableEq

/-- app/schema/seller_application.py, `SellerApplicationReview`. -/
structure SellerApplicationReview where
  status : SellerApplicationStatus
  admin_notes : Option String
deriving Repr, DecidableEq

/-- The 400 error for a review whose requested status is "pending". -/
def invalid_review_status_error : BaseCustomException :=
  ⟨400, "Invalid review status",
    "Review status must be either \x27approved\x27 or \x27rejected\x27", []⟩

/-- The 404 error for a missing application. -/
def application_not_found_error : BaseCustomException :=
  ⟨404, "Not found", "Seller application not found", []⟩

/-- The 400 error for an application that is no longer pending. -/
def already_reviewed_error : BaseCustomException :=
  ⟨400, "Already reviewed", "Seller application has already been reviewed", []⟩

/-- The 409 error of `update_user` for an email owned by another account. -/
def email_in_use_error : BaseCustomException :=
  ⟨409, "Email already in use", "The email is already in use.", []⟩

/-- user.py:131-138, the email branch of `update_user`: runs only when
`email` is truthy (non-None, nonempty) and differs from the current email;
a new email already present on some account is rejected with 409. -/
def update_user_email_check (db : ReviewDB) (user : UserRec) (email : Option String) :
    Except BaseCustomException UserRec :=
  match email with
  | none => .ok user
  | some e =>
    if e = "" then .ok user
    else if e = user.email then .ok user
    else if db.users.any (fun x => x.email == e) then .error email_in_use_error
    else .ok { user with email := e }

/-- user.py:140-144: `if role:` (true for every enum member, i.e. exactly
when a role was supplied) and `if is_active is not None:`. -/
def apply_user_updates (user : UserRec) (role : Option UserRole)
    (is_active : Option Bool) : UserRec :=
  match role, is_active with
  | none, none => user
  | none, some b => { user with is_active := b }
  | some r, none => { user with role := r }
  | some r, some b => { user with role := r, is_active := b }

/-- user.py:107-150, `UserService.update_user`: loads the user (404 when
absent), applies the email check and the partial updates, and commits.  The
final `session.commit()` persists every pending change of the shared
request-scoped session — the user row mutated here together with any rows
mutated earlier in the same request (`review_application` relies on
this). -/
def update_user (db : ReviewDB) (user_id : String) (email : Option String)
    (role : Option UserRole) (is_active : Option Bool) :
    Except BaseCustomException ReviewDB :=
  match get_user_by_id db.users user_id with
  | .error e => .error e
  | .ok user =>
    match update_user_email_check db user email with
    | .error e => .error e
    | .ok user1 =>
      .ok { db with users := db.users.map (fun x =>
        if x.id == user_id then apply_user_updates user1 role is_active else x) }

/-- seller_application.py:133-136, the in-session mutation of the row under
review: reviewer reference, admin notes, review timestamp, and the new
status (approved exactly when the requested status is approved, rejected
otherwise; the assigned schema-enum member persists as its models-enum
namesake, see `persisted_status`). -/
def reviewed_row (req : AppRec) (reviewer_id : String)
    (review : SellerApplicationReview) (now : Nat) : AppRec :=
  { req with
    reviewed_by := some reviewer_id,
    admin_notes := review.admin_notes,
    reviewed_at := some now,
    status := persisted_status
      (if review.status = .approved then .approved else .rejected) }

/-- The session state after the row mutation (not yet committed). -/
def review_session_db (db : ReviewDB) (application_id : Nat) (req' : AppRec) : ReviewDB :=
  { db with apps := db.apps.map (fun a => if a.id == application_id then req' else a) }

/-- seller_application.py:96-145, `SellerApplicationService.review_application`.
Checks in source order: requested status `is SellerApplicationStatus.PENDING`
(both schema members, so the identity test behaves as intended) → 400
Invalid review status; lookup by id → 404 Not found; then
`req.status != SellerApplicationStatus.PENDING` → 400 Already reviewed —
each raised before any mutation.  That last comparison puts the loaded
row's MODELS-enum status against the SCHEMA enum's PENDING
(`model_eq_schema_status`, always False), so the `!=` holds for every
found row — pending ones included — and the mutation/promotion code below
it is unreachable.  That dead code, embedded all the same: the row is
mutated in the session and, on approval, `update_user` promotes the
applicant to seller; its commit would persist, through the shared session,
the application mutation together with the role change, the final commit
of `review_application` then a no-op; on the rejection branch the final
commit would persist the row mutation alone. -/
def review_application (db : ReviewDB) (application_id : Nat) (reviewer_id : String)
    (review : SellerApplicationReview) (now : Nat) :
    Except BaseCustomException ReviewDB :=
  if review.status = .pending then .error invalid_review_status_error
  else
    match db.apps.find? (fun a => a.id == application_id) with
    | none => .error application_not_found_error
    | some req =>
      if model_eq_schema_status req.status SellerApplicationStatus.pending = false then
        .error already_reviewed_error
      else if review.status = .approved then
        update_user (review_session_db db application_id
            (reviewed_row req reviewer_id review now))
          req.user_id none (some .seller) none
      else .ok (review_session_db db application_id
        (reviewed_row req reviewer_id review now))

/-- The request boundary around `review_application`: on success the
committed store is the returned one; on an exception the session dependency
rolls the transaction back (database.py:84-92) and the error handler
surfaces the error, so the store keeps its previous contents. -/
def review_application_request (db : ReviewDB) (application_id : Nat)
    (reviewer_id : String) (review : SellerApplicationReview) (now : Nat) :
    ReviewDB × Option BaseCustomException :=
  match review_application db application_id reviewer_id review now with
  | .ok db1 => (db1, none)
  | .error e => (db, some e)

/-- Claim C5: for every seller application whose status is approved or
rejected, every subsequent review call (with a non-pending requested
status, the only requests that pass the upfront validity gate) on that id
fails with AlreadyReviewed and leaves the store — in particular the
application status, reviewer reference, admin notes and review timestamp —
unchanged; approved and rejected are terminal. -/
theorem C5_review_terminal (db : ReviewDB) (application_id : Nat) (reviewer_id : String)
    (review : SellerApplicationReview) (now : Nat) (req : AppRec)
    (hfind : db.apps.find? (fun a => a.id == application_id) = some req)
    (hreviewed : req.status = .approved ∨ req.status = .rejected)
    (hreq : review.status ≠ .pending) :
    review_application db application_id reviewer_id review now =
      .error already_reviewed_error ∧
    review_application_request db application_id reviewer_id review now =
      (db, some already_reviewed_error) := by
  have h1 : review_application db application_id reviewer_id review now =
      .error already_reviewed_error := by
    unfold review_application
    rw [if_neg hreq, hfind]
    simp [model_eq_schema_status]
  refine ⟨h1, ?_⟩
  simp [review_application_request, h1]

/-- The applicant account for the review witnesses. -/
def c5_user : UserRec := ⟨"u2", "b@x.com", "h", .buyer, true⟩

/-- An already-approved application. -/
def c5_app : AppRec := ⟨1, "u2", "please", .approved, some "adm", some "ok", some 5⟩

/-- Witness for C5: a second review (rejection attempt) of the approved
application 1 fails with AlreadyReviewed and leaves the store unchanged. -/
theorem C5_review_terminal_witness :
    review_application ⟨[c5_user], [c5_app]⟩ 1 "adm2" ⟨.rejected, none⟩ 9 =
      .error already_reviewed_error ∧
    review_application_request ⟨[c5_user], [c5_app]⟩ 1 "adm2" ⟨.rejected, none⟩ 9 =
      (⟨[c5_user], [c5_app]⟩, some already_reviewed_error) :=
  C5_review_terminal ⟨[c5_user], [c5_app]⟩ 1 "adm2" ⟨.rejected, none⟩ 9 c5_app
    (by decide) (Or.inl rfl) (by decide)

/-- The status of application `application_id` in a store (the models-enum
status the ORM loads). -/
def app_status_in (db : ReviewDB) (application_id : Nat) :
    Option ModelSellerApplicationStatus :=
  (db.apps.find? (fun a => a.id == application_id)).map (fun a => a.status)

/-- The account role of the applicant of application `application_id` in a
store. -/
def applicant_role_in (db : ReviewDB) (application_id : Nat) : Option UserRole :=
  (db.apps.find? (fun a => a.id == application_id)).bind
    (fun a => (db.users.find? (fun u => u.id == a.user_id)).map (fun u => u.role))

/-- A pending application by the buyer "u2". -/
def c6_app : AppRec := ⟨1, "u2", "please", .pending, none, none, none⟩

/-- Claim C6: divergence evaluation.  Reviewing the PENDING application 1
with requested status approved fails with 400 AlreadyReviewed: the guard at
seller_application.py:129 compares the models-enum status of the loaded row
with the PENDING member of the schema enum, which is False for every row, so the approval
branch — and with it the role promotion — is unreachable.  The store is
left unchanged: the application still pending, the applicant still a buyer.
No application is ever persisted as approved, with or without the
promotion. -/
theorem C6_approval_unreachable :
    review_application ⟨[c5_user], [c6_app]⟩ 1 "adm" ⟨.approved, some "ok"⟩ 7 =
      .error already_reviewed_error ∧
    review_application_request ⟨[c5_user], [c6_app]⟩ 1 "adm" ⟨.approved, some "ok"⟩ 7 =
      (⟨[c5_user], [c6_app]⟩, some already_reviewed_error) ∧
    app_status_in ⟨[c5_user], [c6_app]⟩ 1 = some .pending ∧
    applicant_role_in ⟨[c5_user], [c6_app]⟩ 1 = some .buyer := by
  decide

/-! ## ProfileService.upload_picture (app/services/profile.py) -/

/-- storage.py:133-139, `StorageService.delete_file`: `stat_object` then
`remove_object`; an `S3Error` (missing object) maps to 404 "File not
found".  The storage state is the list of object names in the bucket. -/
def delete_file (storage : List String) (file_name : String) :
    Except BaseCustomException (List String) :=
  if storage.contains file_name then .ok (storage.filter (fun n => n != file_name))
  else .error ⟨404, "File not found", "File " ++ file_name ++ " does not exist", []⟩

/-- A Python-level error surfaced by `upload_picture` before any service
logic runs. -/
inductive ProfilePyError
  | typeError (msg : String)
  | attributeError (msg : String)
deriving Repr, DecidableEq

/-- profile.py:67-80, `ProfileService.upload_picture`, as written.  The
profile lookup has no not-found guard, so with no profile row the attribute
access `profile.picture_filename` on `None` raises `AttributeError`.  When
the profile exists: the call
`self.storage_service.delete_file(profile.picture_filename)` (profile.py:72)
invokes an `async def` (storage.py:133) WITHOUT `await`, producing a
coroutine that is never run — the old object stays in storage and the
storage state is unchanged; then `await self.storage_service.upload_image(
picture, self.storage_service.bucket_name)` (profile.py:73) passes two
positional arguments to a method declared as `upload_image(self, file)`
(storage.py:54-57), raising `TypeError` before the upload pipeline starts,
so the profile row is never updated, no commit happens, and no presigned
URL is produced.  The result pairs the outcome (on success it would carry
the updated profiles and the presigned URL) with the storage state after
the call. -/
def upload_picture (profiles : List ProfileRec) (storage : List String)
    (user_id : String) :
    Except ProfilePyError (List ProfileRec × String) × List String :=
  match profiles.find? (fun p => p.user_id == user_id) with
  | none =>
    (.error (.attributeError
      "NoneType object has no attribute picture_filename"), storage)
  | some _ =>
    (.error (.typeError
      "StorageService.upload_image() takes 2 positional arguments but 3 were given"),
     storage)

/-- A profile that already has a stored picture. -/
def c9_profile : ProfileRec :=
  ⟨"u1", some "Jane", "jane-1", some "old.jpg", some "image/jpeg"⟩

/-- Claim C9: divergence evaluation.  For a profile with an existing
picture, `upload_picture` raises TypeError (extra bucket argument to
`upload_image`) before the upload pipeline runs, and the un-awaited
`delete_file` never executes: the old object is still in storage, nothing
was replaced, and no profile update or presigned URL was produced — had
the delete been awaited, it would have removed the old object. -/
theorem C9_upload_picture_broken :
    upload_picture [c9_profile] ["old.jpg"] "u1" =
      (.error (.typeError
        "StorageService.upload_image() takes 2 positional arguments but 3 were given"),
       ["old.jpg"]) ∧
    delete_file ["old.jpg"] "old.jpg" = .ok [] := by
  exact ⟨rfl, by decide⟩

end CarSales
